import Mathlib

/-!
# Verification of the Smart Home RTOS ceiling-protocol subsystem

Shallow embedding of `RTOS Mini Project/RTX_Blinky/Blinky.c`: the task
registry, the ICPP/OCPP ceiling manager, the per-task sensor/LED logic,
and the log channel bookkeeping.  All state manipulated under the
`mut_ceiling` mutex in the C source is modelled as explicit state passed
through pure functions; each C function body (as executed with the mutex
held) becomes one Lean function.  Machine integers of type `int` are
modelled as `Int`; `unsigned int` values as `Nat` (all values involved
stay far from any overflow boundary).
-/

namespace SmartHome

/-- Task identity (`OS_TID`).  In the C source a `OS_TID` of `0` is used
by the ceiling manager to mean "no owner". -/
abbrev OS_TID := Nat

/-- Entry of the task registry (`typedef struct { OS_TID tid; int base_prio; } TASKINFO;`,
Blinky.c line 78). -/
structure TASKINFO where
  tid : OS_TID
  base_prio : Int
deriving DecidableEq, Repr

/-- `MAX_TASKS` (Blinky.c line 77). -/
def MAX_TASKS : Nat := 12

/-- `register_task` (Blinky.c lines 83-89): appends a (tid, priority)
pair to the table when there is room, otherwise leaves it unchanged.
The table list models `task_table[0 .. task_table_count-1]`. -/
def register_task (table : List TASKINFO) (tid : OS_TID) (prio : Int) : List TASKINFO :=
  if table.length < MAX_TASKS then table ++ [⟨tid, prio⟩] else table

/-- `get_base_priority` (Blinky.c lines 92-98): linear scan of the task
table; returns the first matching entry's base priority, and the
sentinel `0x7fffffff` when the tid is not registered. -/
def get_base_priority (table : List TASKINFO) (tid : OS_TID) : Int :=
  match table with
  | [] => 0x7fffffff
  | e :: rest => if e.tid = tid then e.base_prio else get_base_priority rest tid

/-- Modelled from the spec: §3 TaskRegistry says lookup of an
unregistered identity yields an explicit "unknown" result (never a
sentinel numeric value).  This is the spec's version of the lookup, to
be compared with `get_base_priority` from the source. -/
def registry_lookup_spec (table : List TASKINFO) (tid : OS_TID) : Option Int :=
  match table with
  | [] => none
  | e :: rest => if e.tid = tid then some e.base_prio else registry_lookup_spec rest tid

/-- The registry built by `init` (Blinky.c lines 391-404), with the
seven created tasks given concrete distinct tids 1..7 in creation
order and the priorities passed to `os_tsk_create`. -/
def init_table : List TASKINFO :=
  register_task (register_task (register_task (register_task (register_task
    (register_task (register_task [] 1 3) 2 4) 3 2) 4 5) 5 6) 6 1) 7 7

/-! ## ICPP simulation (Blinky.c lines 101-118)

`icpp_acquire`/`icpp_release` run their bodies with `mut_ceiling` held;
the mutex serialises the calls, so each call is one atomic step on the
`ceiling_owner` cell (`volatile OS_TID ceiling_owner = 0`, line 72,
with `0` meaning unowned). -/

/-- `icpp_acquire` (Blinky.c lines 101-112): returns the new owner cell
and the `int` result (`true` = success). -/
def icpp_acquire (owner : OS_TID) (self : OS_TID) : OS_TID × Bool :=
  if owner = 0 then (self, true) else (owner, false)

/-- `icpp_release` (Blinky.c lines 114-118): clears the owner cell only
when the caller is the recorded owner; otherwise leaves it unchanged
(and raises no error — the function returns `void` on every path). -/
def icpp_release (owner : OS_TID) (self : OS_TID) : OS_TID :=
  if owner = self then 0 else owner

/-- One call into the ICPP manager, by task `self`. -/
inductive ICPPEvent where
  | acquire (self : OS_TID)
  | release (self : OS_TID)
deriving DecidableEq, Repr

/-- Effect of one ICPP call on the owner cell. -/
def icpp_step (owner : OS_TID) (e : ICPPEvent) : OS_TID :=
  match e with
  | .acquire self => (icpp_acquire owner self).1
  | .release self => icpp_release owner self

/-- Owner cell after an arbitrary interleaving of ICPP calls, starting
from owner cell value `owner`. -/
def icpp_run (owner : OS_TID) (es : List ICPPEvent) : OS_TID :=
  es.foldl icpp_step owner

/-! ## OCPP simulation (Blinky.c lines 126-147)

`system_ceiling` (`volatile int system_ceiling = 0`, line 73) with `0`
meaning "no ceiling set". -/

/-- `ocpp_acquire` (Blinky.c lines 126-140): returns the new
`system_ceiling` cell and the `int acquired` result. -/
def ocpp_acquire (table : List TASKINFO) (ceiling : Int) (self : OS_TID)
    (resource_ceiling : Int) : Int × Bool :=
  let myprio := get_base_priority table self
  if myprio ≤ resource_ceiling ∧ (ceiling = 0 ∨ myprio ≤ ceiling) then
    (resource_ceiling, true)
  else
    (ceiling, false)

/-- `ocpp_release` (Blinky.c lines 142-147): lowers the system ceiling
only if it matches this resource's ceiling.  The `self` argument is
accepted but never inspected, exactly as in the source. -/
def ocpp_release (self : OS_TID) (ceiling : Int) (resource_ceiling : Int) : Int :=
  if ceiling = resource_ceiling then 0 else ceiling

/-! ## Task-side logic -/

/-- Fan-level classification in `temp_task` (Blinky.c lines 203-206). -/
def fan_level (temp : Nat) : Nat :=
  if temp < 25 then 0
  else if temp < 30 then 1
  else if temp < 35 then 2
  else 3

/-- Room-light-level classification in `light_task` (Blinky.c lines 255-258). -/
def room_level (light : Nat) : Nat :=
  if light < 25 then 0
  else if light < 50 then 1
  else if light < 75 then 2
  else 3

/-- `MSGBOX_SIZE` (Blinky.c line 50). -/
def MSGBOX_SIZE : Nat := 5

/-- Producer-side log-pool state: the five backing slots
`log_pool[MSGBOX_SIZE]` and the write cursor `log_pool_put`
(Blinky.c lines 53-54).  The pool is a list of `MSGBOX_SIZE` strings
indexed by `put % MSGBOX_SIZE`. -/
structure LogPoolState where
  pool : List String
  put : Nat
deriving DecidableEq, Repr

/-- One producer log emission (temp_task lines 218-221, light_task
lines 282-285): `sprintf` writes the message into slot
`log_pool_put % MSGBOX_SIZE`, then the cursor advances only if
`os_mbx_send` returned `OS_R_OK` (`sendOk`). -/
def producer_log_step (st : LogPoolState) (msg : String) (sendOk : Bool) :
    LogPoolState :=
  let idx := st.put % MSGBOX_SIZE
  { pool := st.pool.set idx msg
    put := if sendOk then st.put + 1 else st.put }

/-- State of the log channel: the pending messages of the RTX mailbox
`msgbox` (capacity `MSGBOX_SIZE`, from `os_mbx_init(&msgbox, MSGBOX_SIZE)`,
Blinky.c line 382) together with the producer cursor `log_pool_put` and
the consumer cursor `log_pool_get`. -/
structure ChannelState where
  queue : List String
  put : Nat
  get : Nat
deriving DecidableEq, Repr

/-- A producer cycle against the channel: `os_mbx_send` (an external
RTX primitive, modelled as a bounded FIFO of capacity `MSGBOX_SIZE`
whose send succeeds exactly when the box is not full) followed by the
producer's `log_pool_put++` on success (Blinky.c lines 220-221). -/
def chan_enqueue (st : ChannelState) (msg : String) : ChannelState × Bool :=
  if st.queue.length < MSGBOX_SIZE then
    ({ queue := st.queue ++ [msg], put := st.put + 1, get := st.get }, true)
  else
    (st, false)

/-- A consumer cycle against the channel: `os_mbx_wait` (modelled as
removing the oldest pending message when one exists) followed by the
logger's `log_pool_get++` on success (Blinky.c lines 334-341). -/
def chan_dequeue (st : ChannelState) : ChannelState × Bool :=
  match st.queue with
  | [] => (st, false)
  | _ :: rest => ({ queue := rest, put := st.put, get := st.get + 1 }, true)

/-- One interaction with the log channel. -/
inductive ChanOp where
  | enq (msg : String)
  | deq
deriving DecidableEq, Repr

/-- Effect of one channel interaction on the channel state. -/
def chan_step (st : ChannelState) (op : ChanOp) : ChannelState :=
  match op with
  | .enq msg => (chan_enqueue st msg).1
  | .deq => (chan_dequeue st).1

/-- Channel state after a sequence of interactions, starting from the
empty channel with both cursors at 0. -/
def chan_run (ops : List ChanOp) : ChannelState :=
  ops.foldl chan_step ⟨[], 0, 0⟩

/-! ## Lock discipline on the shared sensor fields

The three shared fields `sensor_temp`, `sensor_light`,
`motion_detected` (Blinky.c lines 41-43) are guarded by the counting
semaphore `sem_sensors` (capacity 1).  Each task's loop body touches
them at fixed program points; the lists below transcribe, in program
order, every read/write of a shared sensor field in one loop iteration
of each task, recording whether `sem_sensors` is held there. -/

/-- A shared sensor field. -/
inductive SField where
  | temperature
  | light
  | motion
deriving DecidableEq, BEq, Repr

/-- Direction of an access. -/
inductive RW where
  | read
  | write
deriving DecidableEq, BEq, Repr

/-- One access to a shared sensor field: which field, read or write,
and whether `sem_sensors` is held at that program point. -/
structure SensorAccess where
  field : SField
  kind : RW
  locked : Bool
deriving DecidableEq, Repr

/-- temp_task: `sensor_temp = temp` inside the
`os_sem_wait(&sem_sensors, 50)` / `os_sem_send` pair (lines 197-200). -/
def temp_task_accesses : List SensorAccess :=
  [⟨.temperature, .write, true⟩]

/-- light_task: `sensor_light = light` under the semaphore (lines
250-253); `if (motion_detected)` read with no semaphore held (line 264). -/
def light_task_accesses : List SensorAccess :=
  [⟨.light, .write, true⟩, ⟨.motion, .read, false⟩]

/-- motion_task: `motion_detected = 1` (line 297) and
`motion_detected = 0` (line 302), neither under the semaphore. -/
def motion_task_accesses : List SensorAccess :=
  [⟨.motion, .write, false⟩, ⟨.motion, .write, false⟩]

/-- display_task: snapshot of all three fields under one
`os_sem_wait(&sem_sensors, 50)` acquisition (lines 314-318). -/
def display_task_accesses : List SensorAccess :=
  [⟨.temperature, .read, true⟩, ⟨.light, .read, true⟩, ⟨.motion, .read, true⟩]

/-- emergency_task: `if (sensor_temp > 45)` read with no semaphore held
(line 349). -/
def emergency_task_accesses : List SensorAccess :=
  [⟨.temperature, .read, false⟩]

/-- All shared-sensor-field accesses of all task loop bodies (the
logger and clock tasks touch no sensor field). -/
def all_sensor_accesses : List SensorAccess :=
  temp_task_accesses ++ light_task_accesses ++ motion_task_accesses ++
    display_task_accesses ++ emergency_task_accesses

/-! ## Motion override in the light task (Blinky.c lines 260-279) -/

/-- Abstract actions the light task can take in one loop iteration
between classifying the level and emitting its log entry. -/
inductive LightAction where
  | icppAcquireAttempt
  | ocppAcquireAttempt
  | ocppReleaseCall
  | flashAll
  | updateLeds
deriving DecidableEq, BEq, Repr

/-- Actions of one light_task iteration, transcribed from Blinky.c
lines 264-278: when `motion_detected` is set, flash all LEDs and do
nothing else; otherwise call `ocpp_acquire`, then `update_light_leds`
and `ocpp_release` on success, or `update_light_leds` alone on
failure.  `acquireOk` is the result the `ocpp_acquire` call returned. -/
def light_iter_actions (motion : Bool) (acquireOk : Bool) : List LightAction :=
  if motion then
    [.flashAll]
  else if acquireOk then
    [.ocppAcquireAttempt, .updateLeds, .ocppReleaseCall]
  else
    [.ocppAcquireAttempt, .updateLeds]

end SmartHome

namespace SmartHome

/-- Helper: the owner cell after a run is unowned, or the value it
started with, or the argument of some `acquire` event of the run. -/
theorem icpp_run_owner_from_acquire (es : List ICPPEvent) :
    ∀ owner : OS_TID, icpp_run owner es = 0 ∨ icpp_run owner es = owner ∨
      ICPPEvent.acquire (icpp_run owner es) ∈ es := by
  induction es with
  | nil => intro owner; right; left; rfl
  | cons e rest ih =>
    intro owner
    have hstep : icpp_run owner (e :: rest) = icpp_run (icpp_step owner e) rest := rfl
    rcases ih (icpp_step owner e) with h | h | h
    · left; rw [hstep, h]
    · rw [hstep, h]
      cases e with
      | acquire s =>
        by_cases h0 : owner = 0
        · right; right
          simp [icpp_step, icpp_acquire, h0]
        · right; left
          simp [icpp_step, icpp_acquire, h0]
      | release s =>
        by_cases h0 : owner = s
        · left; simp [icpp_step, icpp_release, h0]
        · right; left; simp [icpp_step, icpp_release, h0]
    · right; right
      rw [hstep]
      exact List.mem_cons_of_mem _ h

/-- Helper: scanning a table that contains no entry for `tid` returns
the sentinel, and the spec-style lookup returns `none`. -/
theorem get_base_priority_not_found (table : List TASKINFO) (tid : OS_TID)
    (h : ∀ e ∈ table, e.tid ≠ tid) :
    get_base_priority table tid = 0x7fffffff ∧
      registry_lookup_spec table tid = none := by
  induction table with
  | nil => exact ⟨rfl, rfl⟩
  | cons e rest ih =>
    have he : e.tid ≠ tid := h e (List.mem_cons_self e rest)
    have hrest : ∀ x ∈ rest, x.tid ≠ tid := fun x hx => h x (List.mem_cons_of_mem e hx)
    have := ih hrest
    constructor
    · simpa [get_base_priority, he] using this.1
    · simpa [registry_lookup_spec, he] using this.2

/-- C1: for every interleaving of ICPP acquire/release calls at most one
task identity is recorded as ceiling owner at any instant (the owner
cell is unowned or traces back to an `acquire`); `icpp_acquire self`
succeeds, setting the owner to `self`, exactly when the owner is unset
and fails otherwise (leaving the owner unchanged); `icpp_release self`
clears the owner only when the owner equals `self`, and a release by a
non-owner never changes the owner and raises no error. -/
theorem icpp_invariant (owner self : OS_TID) (es : List ICPPEvent) :
    ((icpp_acquire owner self).2 = true ↔ owner = 0) ∧
    (owner = 0 → (icpp_acquire owner self).1 = self) ∧
    ((icpp_acquire owner self).2 = false → (icpp_acquire owner self).1 = owner) ∧
    (icpp_release owner owner = 0) ∧
    (owner ≠ self → icpp_release owner self = owner) ∧
    (icpp_run 0 es = 0 ∨ ICPPEvent.acquire (icpp_run 0 es) ∈ es) := by
  refine ⟨?_, ?_, ?_, ?_, ?_, ?_⟩
  · unfold icpp_acquire
    by_cases h0 : owner = 0 <;> simp [h0]
  · intro h0; simp [icpp_acquire, h0]
  · intro hf
    unfold icpp_acquire at *
    by_cases h0 : owner = 0 <;> simp [h0] at hf ⊢
  · simp [icpp_release]
  · intro hne
    simp [icpp_release, hne]
  · rcases icpp_run_owner_from_acquire es 0 with h | h | h
    · exact Or.inl h
    · exact Or.inl h
    · exact Or.inr h

/-- Witness for `icpp_invariant` at concrete inputs: an acquire on an
unowned cell records the caller, and a release by a non-owner (cell
owned by 5, releaser 7) leaves the owner unchanged. -/
theorem icpp_invariant_witness :
    (icpp_acquire 0 7).1 = 7 ∧ icpp_release 5 7 = 5 :=
  ⟨(icpp_invariant 0 7 []).2.1 rfl,
   (icpp_invariant 5 7 []).2.2.2.2.1 (by decide)⟩

/-- C2: `ocpp_acquire task R` succeeds iff the task's static priority
`p` satisfies `p ≤ R` and (the system ceiling is unset or `p ≤`
system ceiling); on success the system ceiling equals `R` immediately
after, and on failure it returns failure with the ceiling unchanged. -/
theorem ocpp_acquire_correct (table : List TASKINFO) (ceiling : Int)
    (self : OS_TID) (R : Int) :
    ((ocpp_acquire table ceiling self R).2 = true ↔
      get_base_priority table self ≤ R ∧
        (ceiling = 0 ∨ get_base_priority table self ≤ ceiling)) ∧
    ((ocpp_acquire table ceiling self R).2 = true →
      (ocpp_acquire table ceiling self R).1 = R) ∧
    ((ocpp_acquire table ceiling self R).2 = false →
      (ocpp_acquire table ceiling self R).1 = ceiling) := by
  unfold ocpp_acquire
  by_cases h : get_base_priority table self ≤ R ∧
      (ceiling = 0 ∨ get_base_priority table self ≤ ceiling) <;>
    simp [h]

/-- Witness for `ocpp_acquire_correct` on the registry built by `init`:
task 3 (the motion task, priority 2) acquires a resource with ceiling 2
and the system ceiling becomes 2; task 4 (the display task, priority 5)
is refused the same resource and the ceiling stays unset. -/
theorem ocpp_acquire_correct_witness :
    (ocpp_acquire init_table 0 3 2).1 = 2 ∧
      (ocpp_acquire init_table 0 4 2).1 = 0 :=
  ⟨(ocpp_acquire_correct init_table 0 3 2).2.1 (by decide),
   (ocpp_acquire_correct init_table 0 4 2).2.2 (by decide)⟩

/-- C3: `ocpp_release task R` clears the system ceiling iff the ceiling
currently equals `R`, without inspecting the releasing task's identity;
in particular after task A (priority 2) successfully acquires with
`R = 2` — setting the ceiling to 2 — a release by a different,
non-owning task B with the same `R` clears the ceiling back to unset,
and a release whose `R` does not match the ceiling changes nothing. -/
theorem ocpp_release_unchecked_identity (selfA selfB : OS_TID) (ceiling R : Int) :
    (ceiling = R → ocpp_release selfA ceiling R = 0) ∧
    (ceiling ≠ R → ocpp_release selfA ceiling R = ceiling) ∧
    (ocpp_release selfA ceiling R = ocpp_release selfB ceiling R) ∧
    (ocpp_acquire [⟨1, 2⟩, ⟨2, 5⟩] 0 1 2 = (2, true) ∧
      ocpp_release 2 2 2 = 0) := by
  refine ⟨?_, ?_, rfl, by decide, by decide⟩
  · intro h; simp [ocpp_release, h]
  · intro h; simp [ocpp_release, h]

/-- Witness for `ocpp_release_unchecked_identity`: with the ceiling at
2, a release naming `R = 2` clears it and a release naming `R = 3`
leaves it at 2. -/
theorem ocpp_release_unchecked_identity_witness :
    ocpp_release 9 2 2 = 0 ∧ ocpp_release 9 2 3 = 2 :=
  ⟨(ocpp_release_unchecked_identity 9 9 2 2).1 rfl,
   (ocpp_release_unchecked_identity 9 9 2 3).2.1 (by decide)⟩

/-- C5 counterexample: looking up the unregistered identity 99 in the
registry built by `init` yields the sentinel numeric value
`0x7fffffff`, not an explicit "unknown" result (the spec-style lookup
would return `none`). -/
theorem registry_lookup_sentinel_counterexample :
    get_base_priority init_table 99 = 0x7fffffff ∧
      registry_lookup_spec init_table 99 = none := by
  exact ⟨by decide, by decide⟩

/-- C5 amended: looking up a task identity that was never registered
returns the sentinel numeric value `0x7fffffff` (the explicit-"unknown"
lookup of the spec would return `none` on exactly those identities). -/
theorem registry_lookup_sentinel (table : List TASKINFO) (tid : OS_TID)
    (h : ∀ e ∈ table, e.tid ≠ tid) :
    get_base_priority table tid = 0x7fffffff ∧
      registry_lookup_spec table tid = none :=
  get_base_priority_not_found table tid h

/-- Witness for `registry_lookup_sentinel` at the concrete registry
built by `init` and the unregistered identity 42. -/
theorem registry_lookup_sentinel_witness :
    get_base_priority init_table 42 = 0x7fffffff ∧
      registry_lookup_spec init_table 42 = none :=
  registry_lookup_sentinel init_table 42 (by decide)

/-- C10: a task identity not present in the registry gets base priority
`0x7fffffff` from `get_base_priority`, so for every resource ceiling
strictly below `0x7fffffff` an `ocpp_acquire` by that task fails and
leaves the system ceiling unchanged. -/
theorem ocpp_acquire_unregistered_fails (table : List TASKINFO)
    (tid : OS_TID) (ceiling R : Int)
    (h : ∀ e ∈ table, e.tid ≠ tid) (hR : R < 0x7fffffff) :
    get_base_priority table tid = 0x7fffffff ∧
    (ocpp_acquire table ceiling tid R).2 = false ∧
    (ocpp_acquire table ceiling tid R).1 = ceiling := by
  have hp := (get_base_priority_not_found table tid h).1
  have hnle : ¬ get_base_priority table tid ≤ R := by
    rw [hp]; exact not_le.mpr hR
  refine ⟨hp, ?_, ?_⟩ <;>
    simp [ocpp_acquire, hnle]

/-- Witness for `ocpp_acquire_unregistered_fails`: the unregistered
identity 42, against the registry built by `init`, fails to acquire a
resource with ceiling 2 while the system ceiling is unset. -/
theorem ocpp_acquire_unregistered_fails_witness :
    get_base_priority init_table 42 = 0x7fffffff ∧
    (ocpp_acquire init_table 0 42 2).2 = false ∧
    (ocpp_acquire init_table 0 42 2).1 = 0 :=
  ocpp_acquire_unregistered_fails init_table 42 0 2 (by decide) (by decide)

/-- C6: for every temperature `t` the fan level is 0 below 25, 1 on
[25,30), 2 on [30,35) and 3 from 35 on; for every light value `l` the
room level is 0 below 25, 1 on [25,50), 2 on [50,75) and 3 from 75 on. -/
theorem threshold_levels_correct (t l : Nat) :
    (t < 25 → fan_level t = 0) ∧
    (25 ≤ t → t < 30 → fan_level t = 1) ∧
    (30 ≤ t → t < 35 → fan_level t = 2) ∧
    (35 ≤ t → fan_level t = 3) ∧
    (l < 25 → room_level l = 0) ∧
    (25 ≤ l → l < 50 → room_level l = 1) ∧
    (50 ≤ l → l < 75 → room_level l = 2) ∧
    (75 ≤ l → room_level l = 3) := by
  unfold fan_level room_level
  refine ⟨?_, ?_, ?_, ?_, ?_, ?_, ?_, ?_⟩ <;> intros <;> split_ifs <;> omega

/-- Witness for `threshold_levels_correct`: temperature 27 gives fan
level 1 and light value 80 gives room level 3. -/
theorem threshold_levels_correct_witness :
    fan_level 27 = 1 ∧ room_level 80 = 3 :=
  ⟨(threshold_levels_correct 27 80).2.1 (by decide) (by decide),
   (threshold_levels_correct 27 80).2.2.2.2.2.2.2 (by decide)⟩

/-- C7: a producer advances its write cursor only on a successful
enqueue; after a failed enqueue the cursor is unchanged and the next
cycle's write overwrites the same backing slot
`log_pool[log_pool_put % MSGBOX_SIZE]` instead of the next one. -/
theorem log_cursor_advance_on_success (st : LogPoolState)
    (msg msg2 : String) (b : Bool) :
    (producer_log_step st msg true).put = st.put + 1 ∧
    (producer_log_step st msg false).put = st.put ∧
    (producer_log_step st msg b).pool =
      st.pool.set (st.put % MSGBOX_SIZE) msg ∧
    (producer_log_step (producer_log_step st msg false) msg2 b).pool =
      (st.pool.set (st.put % MSGBOX_SIZE) msg).set (st.put % MSGBOX_SIZE) msg2 :=
  ⟨rfl, rfl, rfl, rfl⟩

/-- Helper: one channel interaction preserves the cursor/occupancy
invariant: the write cursor equals the read cursor plus the number of
pending messages, and at most `MSGBOX_SIZE` messages are pending. -/
theorem chan_step_inv (st : ChannelState) (op : ChanOp)
    (h1 : st.put = st.get + st.queue.length)
    (h2 : st.queue.length ≤ MSGBOX_SIZE) :
    (chan_step st op).put = (chan_step st op).get + (chan_step st op).queue.length ∧
      (chan_step st op).queue.length ≤ MSGBOX_SIZE := by
  cases op with
  | enq msg =>
    by_cases hq : st.queue.length < MSGBOX_SIZE
    · have hst : chan_step st (.enq msg) =
          ⟨st.queue ++ [msg], st.put + 1, st.get⟩ := by
        simp [chan_step, chan_enqueue, hq]
      rw [hst]
      refine ⟨?_, ?_⟩ <;> simp <;> omega
    · have hst : chan_step st (.enq msg) = st := by
        simp [chan_step, chan_enqueue, hq]
      rw [hst]
      exact ⟨h1, h2⟩
  | deq =>
    cases hq : st.queue with
    | nil =>
      have hst : chan_step st .deq = st := by
        simp [chan_step, chan_dequeue, hq]
      rw [hst]
      exact ⟨h1, h2⟩
    | cons m rest =>
      have hst : chan_step st .deq = ⟨rest, st.put, st.get + 1⟩ := by
        simp [chan_step, chan_dequeue, hq]
      have hlen : st.queue.length = rest.length + 1 := by rw [hq]; rfl
      rw [hst]
      refine ⟨?_, ?_⟩ <;> simp <;> omega

/-- Helper: the cursor/occupancy invariant is preserved along any
sequence of channel interactions. -/
theorem chan_foldl_inv (ops : List ChanOp) :
    ∀ st : ChannelState, st.put = st.get + st.queue.length →
      st.queue.length ≤ MSGBOX_SIZE →
      ((ops.foldl chan_step st).put =
          (ops.foldl chan_step st).get + (ops.foldl chan_step st).queue.length ∧
        (ops.foldl chan_step st).queue.length ≤ MSGBOX_SIZE) := by
  induction ops with
  | nil => intro st h1 h2; exact ⟨h1, h2⟩
  | cons op rest ih =>
    intro st h1 h2
    have h := chan_step_inv st op h1 h2
    exact ih (chan_step st op) h.1 h.2

/-- C8 counterexample: after the execution consisting of five
successful enqueues and no dequeues (P = 5, C = 0), five entries are
pending in the channel, but (P − C) mod 5 = 0 — the claimed formula
does not equal the pending count (`decide (...) = false`). -/
theorem log_channel_mod5_counterexample :
    (chan_run [ChanOp.enq "a", ChanOp.enq "b", ChanOp.enq "c",
        ChanOp.enq "d", ChanOp.enq "e"]).put = 5 ∧
    (chan_run [ChanOp.enq "a", ChanOp.enq "b", ChanOp.enq "c",
        ChanOp.enq "d", ChanOp.enq "e"]).get = 0 ∧
    (chan_run [ChanOp.enq "a", ChanOp.enq "b", ChanOp.enq "c",
        ChanOp.enq "d", ChanOp.enq "e"]).queue.length = 5 ∧
    ((5 : Nat) - 0) % MSGBOX_SIZE = 0 ∧
    decide ((((5 : Nat) - 0) % MSGBOX_SIZE) = 5) = false :=
  ⟨by decide, by decide, by decide, by decide, by decide⟩

/-- C8 amended: after P successful enqueues and C successful dequeues
(starting from the empty channel, with the write cursor advanced P
times and the read cursor C times), exactly P − C entries are pending,
with P − C ≤ 5; the value (P − C) mod 5 equals the pending count
exactly when fewer than 5 entries are pending. -/
theorem log_channel_pending_count (ops : List ChanOp) :
    (chan_run ops).put = (chan_run ops).get + (chan_run ops).queue.length ∧
    (chan_run ops).queue.length ≤ MSGBOX_SIZE ∧
    ((chan_run ops).queue.length < MSGBOX_SIZE →
      ((chan_run ops).put - (chan_run ops).get) % MSGBOX_SIZE =
        (chan_run ops).queue.length) := by
  have h := chan_foldl_inv ops ⟨[], 0, 0⟩ rfl (by decide)
  unfold chan_run
  refine ⟨h.1, h.2, ?_⟩
  intro hlt
  have hsub : (ops.foldl chan_step ⟨[], 0, 0⟩).put -
      (ops.foldl chan_step ⟨[], 0, 0⟩).get =
      (ops.foldl chan_step ⟨[], 0, 0⟩).queue.length := by omega
  rw [hsub]
  exact Nat.mod_eq_of_lt hlt

/-- Witness for `log_channel_pending_count`: after two successful
enqueues and one successful dequeue, one entry is pending and
(2 − 1) mod 5 = 1. -/
theorem log_channel_pending_count_witness :
    ((chan_run [ChanOp.enq "a", ChanOp.enq "b", ChanOp.deq]).put -
        (chan_run [ChanOp.enq "a", ChanOp.enq "b", ChanOp.deq]).get) %
        MSGBOX_SIZE =
      (chan_run [ChanOp.enq "a", ChanOp.enq "b", ChanOp.deq]).queue.length :=
  (log_channel_pending_count [ChanOp.enq "a", ChanOp.enq "b", ChanOp.deq]).2.2
    (by decide)

/-- C4 counterexample: not every access to the three shared sensor
fields happens under `sem_sensors` — the motion task's writes of the
motion flag and the emergency task's read of the temperature are all
outside the lock. -/
theorem sensor_access_unlocked_counterexample :
    all_sensor_accesses.all (fun a => a.locked) = false ∧
    motion_task_accesses.all (fun a => a.locked) = false ∧
    emergency_task_accesses.all (fun a => a.locked) = false :=
  ⟨by decide, by decide, by decide⟩

/-- C4 amended: the temperature and light writes by their producer
tasks and the display task's three-field snapshot reads happen under
`sem_sensors`, but the motion task's writes of the motion flag, the
light task's read of the motion flag, and the emergency task's read of
the temperature all happen without holding the lock. -/
theorem sensor_access_lock_discipline :
    temp_task_accesses.all (fun a => a.locked) = true ∧
    display_task_accesses.all (fun a => a.locked) = true ∧
    (light_task_accesses.filter (fun a => a.kind == RW.write)).all
      (fun a => a.locked) = true ∧
    (light_task_accesses.filter (fun a => a.field == SField.motion)).all
      (fun a => !a.locked) = true ∧
    motion_task_accesses.all (fun a => !a.locked) = true ∧
    emergency_task_accesses.all (fun a => !a.locked) = true :=
  ⟨by decide, by decide, by decide, by decide, by decide, by decide⟩

/-- C9: in an iteration where the motion flag is asserted the light
task only flashes the LEDs — the resource action runs unconditionally
and neither `ocpp_acquire` nor `icpp_acquire` is invoked — while in an
iteration with the flag deasserted the first action is the
`ocpp_acquire` attempt, before the light LED update, whatever the
acquire outcome. -/
theorem motion_override_actions (acquireOk : Bool) :
    light_iter_actions true acquireOk = [LightAction.flashAll] ∧
    (light_iter_actions true acquireOk).contains
      LightAction.ocppAcquireAttempt = false ∧
    (light_iter_actions true acquireOk).contains
      LightAction.icppAcquireAttempt = false ∧
    (light_iter_actions false acquireOk).head? =
      some LightAction.ocppAcquireAttempt ∧
    (light_iter_actions false acquireOk).contains
      LightAction.updateLeds = true := by
  cases acquireOk <;> exact ⟨rfl, rfl, rfl, rfl, rfl⟩

end SmartHome
